import Mathlib

/-!
Verification of the `electron-fastapi` backend (`src/backend/app/main.py`).

The program is a small HTTP service with two GET handlers
(`/api/health`, `/api/hello`), a permissive CORS middleware, and a
startup routine that resolves a TCP port from `sys.argv` and runs the
server on `127.0.0.1`.  The definitions below are a shallow embedding of
that file: handlers become pure Lean functions on an explicit request
type, the port resolution becomes a function on the argument vector
returning `Option` (where `none` models the uncaught `ValueError` that
`int()` raises on malformed input), and `sys.version` — a value provided
by the interpreter at run time — becomes a parameter of the environment.
-/

namespace ElectronFastapi

/-! ## Python `int()` on strings

`int(s)` strips leading and trailing whitespace, accepts one optional
sign, then a nonempty run of decimal digits in which single underscores
may appear between digits; anything else raises `ValueError`, modelled
as `none`. -/

def isPySpace (c : Char) : Bool :=
  c = ' ' || c = '\t' || c = '\n' || c = '\r' || c = '\x0b' || c = '\x0c'

def pyStrip (cs : List Char) : List Char :=
  ((cs.dropWhile isPySpace).reverse.dropWhile isPySpace).reverse

/-- After an initial digit: further characters are digits, with single
underscores allowed only between digits. -/
def pyDigitsAux : List Char → Bool
  | [] => true
  | '_' :: [] => false
  | '_' :: c :: rest => c.isDigit && pyDigitsAux rest
  | c :: rest => c.isDigit && pyDigitsAux rest

def pyDigitsOk : List Char → Bool
  | [] => false
  | c :: rest => c.isDigit && pyDigitsAux rest

def digitsVal (cs : List Char) : Nat :=
  (cs.filter (fun c => c ≠ '_')).foldl (fun a c => 10 * a + (c.toNat - 48)) 0

def pythonInt (s : String) : Option Int :=
  match pyStrip s.data with
  | '+' :: rest => if pyDigitsOk rest then some (digitsVal rest : Int) else none
  | '-' :: rest => if pyDigitsOk rest then some (-(digitsVal rest : Int)) else none
  | cs => if pyDigitsOk cs then some (digitsVal cs : Int) else none

/-! ## Requests, responses and handlers -/

/-- The process environment: `sys.version`, fixed for the lifetime of the
process and supplied by the interpreter. -/
structure Env where
  pythonVersion : String
deriving DecidableEq

/-- The two routes of the application.  `/api/hello` carries its optional
`name` query parameter; `none` models an absent parameter. -/
inductive Request where
  | health : Request
  | hello (name : Option String) : Request
deriving DecidableEq

/-- An HTTP response: status code, headers, and a flat JSON object body
modelled as an association list of string fields. -/
structure Response where
  statusCode : Nat
  headers : List (String × String)
  body : List (String × String)
deriving DecidableEq

/-- Body returned by `health`: `{"status": "ok", "python": sys.version}`. -/
def healthBody (version : String) : List (String × String) :=
  [("status", "ok"), ("python", version)]

/-- Body returned by `hello`: `{"message": f"Hello, {name}!"}` with `name`
defaulting to `"World"`. -/
def helloBody (name : Option String) : List (String × String) :=
  [("message", "Hello, " ++ name.getD "World" ++ "!")]

/-- The two route handlers.  FastAPI returns the dict as JSON with the
default status code 200; the handlers themselves set no headers. -/
def handle (env : Env) : Request → Response
  | Request.health => ⟨200, [], healthBody env.pythonVersion⟩
  | Request.hello name => ⟨200, [], helloBody name⟩

/-! ## CORS middleware configuration -/

/-- The keyword arguments passed to `app.add_middleware(CORSMiddleware, ...)`. -/
structure CORSConfig where
  allow_origins : List String
  allow_methods : List String
  allow_headers : List String
deriving DecidableEq

/-- The configuration in `main.py`: all three lists are `["*"]`. -/
def corsConfig : CORSConfig := ⟨["*"], ["*"], ["*"]⟩

/-- Modelled from the spec: the CORS middleware itself is framework code
(not in this repository); per the spec it permits an origin when the
configuration lists it or lists the wildcard `"*"`. -/
def corsAllowsOrigin (c : CORSConfig) (o : String) : Bool :=
  c.allow_origins.contains "*" || c.allow_origins.contains o

/-- Modelled from the spec: wildcard semantics for methods, as for origins. -/
def corsAllowsMethod (c : CORSConfig) (m : String) : Bool :=
  c.allow_methods.contains "*" || c.allow_methods.contains m

/-- Modelled from the spec: wildcard semantics for headers, as for origins. -/
def corsAllowsHeader (c : CORSConfig) (h : String) : Bool :=
  c.allow_headers.contains "*" || c.allow_headers.contains h

/-- Modelled from the spec: the cross-origin headers the middleware
attaches, rendered from the configured lists ("CORS headers permitting
any origin, method, and header on every response"). -/
def corsHeaders (c : CORSConfig) : List (String × String) :=
  [("Access-Control-Allow-Origin", String.intercalate ", " c.allow_origins),
   ("Access-Control-Allow-Methods", String.intercalate ", " c.allow_methods),
   ("Access-Control-Allow-Headers", String.intercalate ", " c.allow_headers)]

/-- Modelled from the spec: the middleware decorates every response with
the cross-origin headers. -/
def corsWrap (c : CORSConfig) (r : Response) : Response :=
  ⟨r.statusCode, corsHeaders c ++ r.headers, r.body⟩

/-- A full request/response cycle: route dispatch, then the middleware. -/
def serveHTTP (env : Env) (r : Request) : Response :=
  corsWrap corsConfig (handle env r)

/-- The process serving a sequence of requests.  The handlers keep no
state, so the trace of responses is the pointwise image of the trace of
requests. -/
def serve (env : Env) (reqs : List Request) : List Response :=
  reqs.map (serveHTTP env)

/-! ## Startup -/

/-- `port = int(sys.argv[1]) if len(sys.argv) > 1 else 8765`.
`argv` is the full `sys.argv`, whose head is the program name; `none`
models the uncaught `ValueError` from `int()`. -/
def resolvePort (argv : List String) : Option Int :=
  if 1 < argv.length then pythonInt (argv.getD 1 "") else some 8765

/-- The arguments of the `uvicorn.run` call. -/
structure RunConfig where
  host : String
  port : Int
  log_level : String
deriving DecidableEq

/-- `main()`: resolve the port, then run the server on `127.0.0.1`.
`none` means startup raised before ever listening. -/
def main (argv : List String) : Option RunConfig :=
  (resolvePort argv).map (fun p => ⟨"127.0.0.1", p, "info"⟩)

end ElectronFastapi

namespace ElectronFastapi

/-- C1: for every string `s` supplied as the `name` query parameter
(including the empty string), GET `/api/hello` returns status 200 with
body message `"Hello, " ++ s ++ "!"`; with no `name` parameter the
message is `"Hello, World!"`. -/
theorem hello_greets (env : Env) (s : String) :
    (serveHTTP env (Request.hello (some s))).statusCode = 200 ∧
    (serveHTTP env (Request.hello (some s))).body.lookup "message"
      = some ("Hello, " ++ s ++ "!") ∧
    (serveHTTP env (Request.hello none)).statusCode = 200 ∧
    (serveHTTP env (Request.hello none)).body.lookup "message"
      = some "Hello, World!" :=
  ⟨rfl, rfl, rfl, rfl⟩

/-- C2: GET `/api/health` returns status 200 with `"status"` field `"ok"`
and a non-empty `"python"` runtime version string. -/
theorem health_ok (env : Env) (h : env.pythonVersion ≠ "") :
    (serveHTTP env Request.health).statusCode = 200 ∧
    (serveHTTP env Request.health).body.lookup "status" = some "ok" ∧
    ∃ v, (serveHTTP env Request.health).body.lookup "python" = some v ∧ v ≠ "" :=
  ⟨rfl, rfl, env.pythonVersion, rfl, h⟩

/-- Witness for C2 at the concrete version string `"3.11.5"`. -/
theorem health_ok_witness :
    (serveHTTP ⟨"3.11.5"⟩ Request.health).statusCode = 200 ∧
    (serveHTTP ⟨"3.11.5"⟩ Request.health).body.lookup "status" = some "ok" ∧
    ∃ v, (serveHTTP ⟨"3.11.5"⟩ Request.health).body.lookup "python" = some v ∧ v ≠ "" :=
  health_ok ⟨"3.11.5"⟩ (by decide)

/-- C3 counterexample: the health response body has no field named
`runtime_version`; its fields are exactly `status` and `python`. -/
theorem health_no_runtime_version_field :
    (serveHTTP ⟨"3.11.5"⟩ Request.health).body.lookup "runtime_version" = none ∧
    (serveHTTP ⟨"3.11.5"⟩ Request.health).body.map Prod.fst = ["status", "python"] :=
  ⟨rfl, rfl⟩

/-- C3 amended: for any number of repeated calls, every response of GET
`/api/health` has a field named `python` (not `runtime_version`) holding
a non-empty string describing the running interpreter, alongside the
field `status` equal to `"ok"`. -/
theorem health_python_field_repeated (env : Env) (h : env.pythonVersion ≠ "")
    (n : Nat) :
    ∀ r ∈ serve env (List.replicate n Request.health),
      r.body.lookup "status" = some "ok" ∧
      ∃ v, r.body.lookup "python" = some v ∧ v ≠ "" := by
  intro r hr
  obtain ⟨q, hq, hqr⟩ := List.mem_map.mp hr
  have hqh : q = Request.health := List.eq_of_mem_replicate hq
  subst hqh
  subst hqr
  exact ⟨rfl, env.pythonVersion, rfl, h⟩

/-- Witness for the amended C3: the single response of a one-request trace
at the concrete version `"3.11.5"`. -/
theorem health_python_field_repeated_witness :
    (serveHTTP ⟨"3.11.5"⟩ Request.health).body.lookup "status" = some "ok" ∧
    ∃ v, (serveHTTP ⟨"3.11.5"⟩ Request.health).body.lookup "python" = some v ∧
      v ≠ "" :=
  health_python_field_repeated ⟨"3.11.5"⟩ (by decide) 1
    (serveHTTP ⟨"3.11.5"⟩ Request.health) (by simp [serve])

/-- C4: with no command-line argument the port resolves to 8765; with a
first argument that `int()` parses it resolves to that integer, in
particular `"9999"` resolves to 9999. -/
theorem resolvePort_default_and_arg :
    (∀ argv : List String, argv.length ≤ 1 → resolvePort argv = some 8765) ∧
    (∀ (prog s : String) (rest : List String) (n : Int),
      pythonInt s = some n → resolvePort (prog :: s :: rest) = some n) ∧
    pythonInt "9999" = some 9999 := by
  refine ⟨fun argv h => ?_, fun prog s rest n h => ?_, by decide⟩
  · simp [resolvePort, Nat.not_lt.mpr h]
  · have hlen : 1 < (prog :: s :: rest).length := by
      simp [List.length_cons]
    simp [resolvePort, hlen, List.getD, h]

/-- Witness for C4 at the concrete argument vectors `["main.py"]` and
`["main.py", "9999"]`. -/
theorem resolvePort_default_and_arg_witness :
    resolvePort ["main.py"] = some 8765 ∧
    resolvePort ["main.py", "9999"] = some 9999 :=
  ⟨resolvePort_default_and_arg.1 ["main.py"] (by decide),
   resolvePort_default_and_arg.2.1 "main.py" "9999" [] 9999 (by decide)⟩

/-- C5 counterexample: with the unparsable first argument `"abc"` the
port does not resolve to the default 8765 — `int("abc")` raises, so
resolution yields no port at all. -/
theorem resolvePort_unparsable_not_default :
    resolvePort ["main.py", "abc"] ≠ some 8765 := by
  decide

/-- C5 amended: an absent first argument resolves the port to the default
8765, but an unparsable first argument does not fall back to the default:
port resolution fails (the `int()` error propagates). -/
theorem resolvePort_amended :
    (∀ argv : List String, argv.length ≤ 1 → resolvePort argv = some 8765) ∧
    (∀ (prog s : String) (rest : List String),
      pythonInt s = none → resolvePort (prog :: s :: rest) = none) := by
  refine ⟨fun argv h => ?_, fun prog s rest h => ?_⟩
  · simp [resolvePort, Nat.not_lt.mpr h]
  · have hlen : 1 < (prog :: s :: rest).length := by
      simp [List.length_cons]
    simp [resolvePort, hlen, List.getD, h]

/-- Witness for the amended C5 at `["main.py"]` and `["main.py", "abc"]`. -/
theorem resolvePort_amended_witness :
    resolvePort ["main.py"] = some 8765 ∧
    resolvePort ["main.py", "abc"] = none :=
  ⟨resolvePort_amended.1 ["main.py"] (by decide),
   resolvePort_amended.2 "main.py" "abc" [] (by decide)⟩

/-- C6: for every first command-line argument that `int()` cannot parse,
startup raises an unhandled error: it neither falls back to a default
port nor reaches the `uvicorn.run` call. -/
theorem main_unparsable_raises (prog s : String) (rest : List String)
    (h : pythonInt s = none) : main (prog :: s :: rest) = none := by
  have hlen : 1 < (prog :: s :: rest).length := by
    simp [List.length_cons]
  simp [main, resolvePort, hlen, List.getD, h]

/-- Witness for C6 at the concrete argument `"abc"`. -/
theorem main_unparsable_raises_witness :
    main ["main.py", "abc"] = none :=
  main_unparsable_raises "main.py" "abc" [] (by decide)

/-- C7: every response to every request carries the cross-origin headers,
and the configured policy allows all origins, all methods and all headers
(each configured list is the wildcard `["*"]`). -/
theorem cors_permissive :
    (∀ (env : Env) (r : Request),
      (serveHTTP env r).headers.lookup "Access-Control-Allow-Origin" = some "*" ∧
      (serveHTTP env r).headers.lookup "Access-Control-Allow-Methods" = some "*" ∧
      (serveHTTP env r).headers.lookup "Access-Control-Allow-Headers" = some "*") ∧
    (∀ o : String, corsAllowsOrigin corsConfig o = true) ∧
    (∀ m : String, corsAllowsMethod corsConfig m = true) ∧
    (∀ h : String, corsAllowsHeader corsConfig h = true) ∧
    corsConfig.allow_origins = ["*"] ∧
    corsConfig.allow_methods = ["*"] ∧
    corsConfig.allow_headers = ["*"] := by
  refine ⟨fun env r => ⟨rfl, rfl, rfl⟩, fun o => rfl, fun m => rfl, fun h => rfl,
    rfl, rfl, rfl⟩

/-- C8: each handler is a deterministic pure function of its own request:
in any trace, the response at a position depends only on the request at
that position, so two invocations of the same request — in the same trace
or in different traces of the same process — produce identical responses,
and serving a request neither reads nor writes state that the rest of the
trace could observe. -/
theorem handlers_pure (env : Env) (pre post : List Request) (r : Request) :
    serve env (pre ++ r :: post)
      = serve env pre ++ serveHTTP env r :: serve env post ∧
    (serve env (pre ++ r :: post)).get ⟨pre.length, by simp [serve]⟩
      = serveHTTP env r := by
  constructor
  · simp [serve]
  · induction pre with
    | nil => rfl
    | cons a pre ih => simpa [serve, List.get] using ih

/-- C9: whenever startup succeeds, the server binds to the loopback host
`127.0.0.1` on exactly the resolved port. -/
theorem binds_loopback (argv : List String) (cfg : RunConfig)
    (h : main argv = some cfg) :
    cfg.host = "127.0.0.1" ∧ resolvePort argv = some cfg.port := by
  unfold main at h
  cases hp : resolvePort argv with
  | none => rw [hp] at h; exact absurd h (by simp)
  | some p =>
    rw [hp] at h
    have hc : cfg = ⟨"127.0.0.1", p, "info"⟩ := (Option.some.inj h).symm
    subst hc
    exact ⟨rfl, rfl⟩

/-- Witness for C9 at the argument vector `["main.py"]`. -/
theorem binds_loopback_witness :
    (⟨"127.0.0.1", 8765, "info"⟩ : RunConfig).host = "127.0.0.1" ∧
    resolvePort ["main.py"] = some (⟨"127.0.0.1", 8765, "info"⟩ : RunConfig).port :=
  binds_loopback ["main.py"] ⟨"127.0.0.1", 8765, "info"⟩ (by decide)

/-- C10: with two or more command-line arguments, the resolved port equals
what the first argument alone resolves to; arguments after the first are
ignored. -/
theorem extra_args_ignored (prog a : String) (rest : List String) :
    resolvePort (prog :: a :: rest) = resolvePort [prog, a] := by
  simp [resolvePort, List.getD]

end ElectronFastapi
